import Mathlib

/-!
# Verification of the Frappe→Wix item-sync core

Shallow embedding of the sync engine of `frappe-wix-integration-clean`:

* `src/wix_integration/utils/wix_api.py` — primary module: eligibility
  predicate `should_sync_item`, field mapper `map_item_to_wix_product`,
  orchestrators `create_wix_product` / `update_wix_product`, id storage
  `store_wix_product_id` / `get_wix_product_id`, simulated API calls.
* `src/wix_integration/wix_integration/utils/wix_api.py` — near-duplicate
  variant of the same module (embedded here with a `_v2` suffix) whose
  mapper differs (slug, currency, stock) and whose orchestrators share the
  same control flow.
* `src/wix_integration/utils/wix_mcp.py` — pre-flight validator
  `validate_wix_product_data`.

Python documents are embedded as a structure of their fields; Python
truthiness of optional/empty values is made explicit at each use site.
Effectful steps (frappe.db reads/writes, the Wix API calls, exceptions
raised inside a step) are driven by an explicit `Env` oracle, and each
orchestrator run returns the final id store, the trace of external calls
it made, and the exception escaping it (if any).
-/

/-- A Frappe `Item` document, restricted to the fields the sync engine
reads. `name` is the Frappe document name (the `frappe.db` key used by
`store_wix_product_id` / `get_wix_product_id`); optional numeric fields are
`Option ℚ` so Python `None` and a stored value are distinguished. -/
structure Item where
  name : String
  item_code : String
  item_name : String
  description : Option String
  disabled : Bool
  is_sales_item : Bool
  standard_rate : Option ℚ
  weight_per_unit : Option ℚ
  projected_qty : Option ℚ
  deriving Repr, DecidableEq

/-- Embedding of `should_sync_item` (identical in both copies of `wix_api.py`):
skip when disabled, not a sales item, or `not standard_rate or
standard_rate <= 0` (Python truthiness: `None` and `0` are falsy; the
`or` short-circuits so `None` never reaches the `<=`). -/
def should_sync_item (doc : Item) : Bool :=
  if doc.disabled then false
  else if !doc.is_sales_item then false
  else
    match doc.standard_rate with
    | none => false
    | some r => if r = 0 ∨ r ≤ 0 then false else true

/-- One variant of the Wix product payload built by
`map_item_to_wix_product` in `src/wix_integration/utils/wix_api.py`:
`sku`, `price.actualPrice.amount`, optional `physicalProperties.weight`,
and the literal empty `choices` list. -/
structure WixVariant where
  sku : String
  amount : String
  weight : Option ℚ
  choices : List String
  deriving Repr, DecidableEq

/-- The `variantsInfo` wrapper dict. -/
structure WixVariantsInfo where
  variants : List WixVariant
  deriving Repr, DecidableEq

/-- The `product` dict built by `map_item_to_wix_product`
(`src/wix_integration/utils/wix_api.py`): `plainDescription` is `none`
when the key is absent. -/
structure WixProduct where
  name : String
  productType : String
  plainDescription : Option String
  variantsInfo : WixVariantsInfo
  visible : Bool
  deriving Repr, DecidableEq

/-- The full `product_data` payload `{"product": {...}}`. -/
structure WixProductData where
  product : WixProduct
  deriving Repr, DecidableEq

/-- Embedding of `map_item_to_wix_product` from `src/wix_integration/utils/wix_api.py`.
`pyStr` stands for Python's `str` applied to `doc.standard_rate` (the
rendering of the rate is external to this repository); everything else is
translated literally: `name = item_name or item_code`, `productType =
"PHYSICAL"`, one variant with `sku = item_code`, `plainDescription` only
when `doc.description` is truthy, `weight` only when `doc.weight_per_unit`
is truthy, `visible = True`. -/
def map_item_to_wix_product (pyStr : Option ℚ → String) (doc : Item) : WixProductData :=
  { product :=
    { name := if doc.item_name = "" then doc.item_code else doc.item_name
      productType := "PHYSICAL"
      plainDescription :=
        match doc.description with
        | some d => if d = "" then none else some d
        | none => none
      variantsInfo :=
        { variants :=
          [ { sku := doc.item_code
              amount := pyStr doc.standard_rate
              weight :=
                match doc.weight_per_unit with
                | some w => if w = 0 then none else some w
                | none => none
              choices := [] } ] }
      visible := true } }

/-- Keep a character of the lowered item code: the regex class
`[a-zA-Z0-9-_]` of `generate_product_slug`. -/
def isSlugKeep (c : Char) : Bool :=
  ('a' ≤ c && c ≤ 'z') || ('A' ≤ c && c ≤ 'Z') || ('0' ≤ c && c ≤ '9') || c = '-' || c = '_'

/-- Collapse runs of `'-'` to a single `'-'` (the `re.sub(r'-+', '-', ...)`
step of `generate_product_slug`). -/
def collapseDashes : List Char → List Char
  | [] => []
  | c :: rest =>
    let r := collapseDashes rest
    if c = '-' then
      match r with
      | '-' :: _ => r
      | _ => c :: r
    else c :: r

/-- Embedding of `generate_product_slug` from
`src/wix_integration/wix_integration/utils/wix_api.py`: lower-case the
code, replace characters outside `[a-zA-Z0-9-_]` by `'-'`, collapse dash
runs, strip leading/trailing dashes. -/
def generate_product_slug (item_code : String) : String :=
  let lowered := item_code.toLower
  let replaced := lowered.data.map (fun c => if isSlugKeep c then c else '-')
  let collapsed := collapseDashes replaced
  let stripped := ((collapsed.dropWhile (· = '-')).reverse.dropWhile (· = '-')).reverse
  String.mk stripped

/-- Python `int()` on a rational (truncation toward zero), used for
`int(doc.projected_qty)` in the `_v2` mapper. -/
def pyInt (q : ℚ) : Int := q.num / (q.den : Int)

/-- The `physicalProperties.weight` dict of the `_v2` mapper:
`{"value": ..., "unit": "kg"}`. -/
structure WixWeight2 where
  value : ℚ
  unit : String
  deriving Repr, DecidableEq

/-- The `stock` dict of the `_v2` mapper. -/
structure WixStock2 where
  trackInventory : Bool
  inStock : Bool
  quantity : Option Int
  deriving Repr, DecidableEq

/-- Variant payload built by the `_v2` mapper
(`src/wix_integration/wix_integration/utils/wix_api.py`). -/
structure WixVariant2 where
  sku : String
  amount : String
  currency : String
  weight : Option WixWeight2
  stock : WixStock2
  deriving Repr, DecidableEq

/-- Product payload built by the `_v2` mapper. Note: no `productType`
key exists in this variant of the mapper. -/
structure WixProduct2 where
  name : String
  slug : String
  plainDescription : String
  variants : List WixVariant2
  deriving Repr, DecidableEq

/-- The full `_v2` payload `{"product": {...}}`. -/
structure WixProductData2 where
  product : WixProduct2
  deriving Repr, DecidableEq

/-- Embedding of `map_item_to_wix_product` from
`src/wix_integration/wix_integration/utils/wix_api.py` (the duplicated
module). `globalCurrency` stands for
`frappe.defaults.get_global_default("currency")` (external configuration,
read-only); `or "USD"` is the Python truthiness fallback. -/
def map_item_to_wix_product_v2 (pyStr : Option ℚ → String)
    (globalCurrency : Option String) (doc : Item) : WixProductData2 :=
  { product :=
    { name := if doc.item_name = "" then doc.item_code else doc.item_name
      slug := generate_product_slug doc.item_code
      plainDescription :=
        match doc.description with
        | some d => if d = "" then "" else d
        | none => ""
      variants :=
        [ { sku := doc.item_code
            amount := pyStr doc.standard_rate
            currency :=
              match globalCurrency with
              | some c => if c = "" then "USD" else c
              | none => "USD"
            weight :=
              match doc.weight_per_unit with
              | some w => if w = 0 then none else some ⟨w, "kg"⟩
              | none => none
            stock :=
              { trackInventory := true
                inStock := true
                quantity :=
                  match doc.projected_qty with
                  | some q => if q = 0 then none else some (pyInt q)
                  | none => none } } ] } }

/-- The per-variant price check of `validate_wix_product_data`
(`src/wix_integration/utils/wix_mcp.py`): an error for every variant whose
`price.actualPrice.amount` is falsy, numbered from 1. -/
def variant_price_errors : Nat → List WixVariant → List String
  | _, [] => []
  | i, v :: rest =>
    (if v.amount = "" then ["Variant " ++ toString (i + 1) ++ " must have a price"] else [])
      ++ variant_price_errors (i + 1) rest

/-- Embedding of `validate_wix_product_data` from `src/wix_integration/utils/wix_mcp.py`,
on the payload shape produced by `map_item_to_wix_product` (the source
function also accepts arbitrary non-dict data; that defensive branch is
outside the typed payload). Checks: truthy `name`, truthy `productType`,
non-empty `variantsInfo.variants`, and a truthy price amount per variant.
Returns `(len(errors) == 0, errors)`. -/
def validate_wix_product_data (pd : WixProductData) : Bool × List String :=
  let errors : List String := []
  let errors := if pd.product.name = "" then errors ++ ["Product name is required"] else errors
  let errors := if pd.product.productType = "" then errors ++ ["Product type is required"] else errors
  let errors :=
    if pd.product.variantsInfo.variants = [] then errors ++ ["At least one variant is required"]
    else errors ++ variant_price_errors 0 pd.product.variantsInfo.variants
  (errors.isEmpty, errors)

/-! ## Orchestrator state, effects and trace -/

/-- The persisted `wix_product_id` store: the `Item.name →
wix_product_id` association maintained through `frappe.db.set_value` /
`frappe.db.get_value` on the custom `wix_product_id` field. -/
abbrev Db := List (String × String)

/-- Embedding of `frappe.db.get_value("Item", name, "wix_product_id")`. -/
def dbGet (db : Db) (k : String) : Option String :=
  match db with
  | [] => none
  | (k', v) :: rest => if k' = k then some v else dbGet rest k

/-- Embedding of `frappe.db.set_value("Item", name, "wix_product_id", pid)` (upsert). -/
def dbSet (db : Db) (k v : String) : Db :=
  match db with
  | [] => [(k, v)]
  | (k', v') :: rest => if k' = k then (k, v) :: rest else (k', v') :: dbSet rest k v

/-- Externally visible side effects of one sync run: `mapped` marks the
`map_item_to_wix_product` call completing, `createCall` / `updateCall` the
Wix API create/update requests, `storeId` an invocation of
`store_wix_product_id`. -/
inductive Event where
  | mapped
  | createCall
  | updateCall (pid : String)
  | storeId (docName pid : String)
  deriving Repr, DecidableEq

/-- Oracle for everything outside the orchestrator's own control flow:
which effectful steps raise an exception, the hash `frappe.generate_hash`
produces, the rendering Python `str` gives the rate, and the global
default currency. One `Env` drives one sync attempt. -/
structure Env where
  pyStr : Option ℚ → String
  globalCurrency : Option String
  dbGetRaises : Bool
  mapRaises : Bool
  createApiRaises : Bool
  updateApiRaises : Bool
  storeRaises : Bool
  createHash : String

/-- Result of one orchestrator run: the final id store, the trace of
side effects, and `exn = some msg` when a Python exception escapes the
function (entry points catch everything, so their `exn` is `none`). -/
structure SyncResult where
  db : Db
  events : List Event
  exn : Option String
  deriving Repr, DecidableEq

/-- The fields of the simulated Wix API response dict that callers read:
`response_data.get("product", {}).get("_id")`. -/
structure WixApiResponse where
  product_id : Option String
  deriving Repr, DecidableEq

/-- Embedding of `call_wix_create_product_api` (`src/wix_integration/utils/wix_api.py`):
its internal `try` either raises (modelled by `env.createApiRaises`,
returning `(False, {"error": ...})`) or returns the simulated success
`(True, {"product": {"_id": "wix_" + hash, ...}})`. -/
def call_wix_create_product_api (env : Env) (_pd : WixProductData) : Bool × WixApiResponse :=
  if env.createApiRaises then (false, ⟨none⟩)
  else (true, ⟨some ("wix_" ++ env.createHash)⟩)

/-- Embedding of `call_wix_update_product_api` (`src/wix_integration/utils/wix_api.py`):
simulated success echoes the product id; an internal exception returns
`(False, {"error": ...})`. -/
def call_wix_update_product_api (env : Env) (pid : String) (_pd : WixProductData) :
    Bool × WixApiResponse :=
  if env.updateApiRaises then (false, ⟨none⟩)
  else (true, ⟨some pid⟩)

/-- Embedding of `store_wix_product_id`: the call is recorded as a `storeId` event; its
internal `try/except` swallows any exception (`env.storeRaises`), in which
case the store is left unchanged. Never raises to its caller. -/
def store_wix_product_id (env : Env) (db : Db) (doc : Item) (pid : String) :
    Db × List Event :=
  if env.storeRaises then (db, [Event.storeId doc.name pid])
  else (dbSet db doc.name pid, [Event.storeId doc.name pid])

/-- Embedding of `get_wix_product_id`: reads the stored id; its internal `try/except`
returns `None` on any exception (`env.dbGetRaises`). Never raises. -/
def get_wix_product_id (env : Env) (db : Db) (doc : Item) : Option String :=
  if env.dbGetRaises then none else dbGet db doc.name

/-- Body of `create_wix_product` (`src/wix_integration/utils/wix_api.py`)
up to and excluding the outer `except Exception` handler: skip ineligible
items, map (the one step whose exception reaches the outer handler —
`env.mapRaises`), call the create API; on success store the returned id
only when it is truthy; on API failure only `handle_wix_api_error` (log +
message, no state change). -/
def create_wix_product_inner (env : Env) (db : Db) (doc : Item) : SyncResult :=
  if !should_sync_item doc then ⟨db, [], none⟩
  else if env.mapRaises then ⟨db, [], some "exception in map_item_to_wix_product"⟩
  else
    let product_data := map_item_to_wix_product env.pyStr doc
    let res := call_wix_create_product_api env product_data
    if res.1 then
      match res.2.product_id with
      | some pid =>
        if pid = "" then ⟨db, [Event.mapped, Event.createCall], none⟩
        else
          let s := store_wix_product_id env db doc pid
          ⟨s.1, [Event.mapped, Event.createCall] ++ s.2, none⟩
      | none => ⟨db, [Event.mapped, Event.createCall], none⟩
    else ⟨db, [Event.mapped, Event.createCall], none⟩

/-- Entry point `create_wix_product`: the whole body is wrapped in
`try/except Exception`, whose handler logs and returns normally — so the
entry point never lets an exception escape. -/
def create_wix_product (env : Env) (db : Db) (doc : Item) : SyncResult :=
  let r := create_wix_product_inner env db doc
  ⟨r.db, r.events, none⟩

/-- Body of `update_wix_product` (`src/wix_integration/utils/wix_api.py`)
up to and excluding the outer `except Exception` handler: skip ineligible
items; if the stored id is falsy (`None` or `""`) fall back to the
`create_wix_product` entry point and return; otherwise map and call the
update API — neither its success branch (log + message) nor its failure
branch (`handle_wix_api_error`) touches the id store. -/
def update_wix_product_inner (env : Env) (db : Db) (doc : Item) : SyncResult :=
  if !should_sync_item doc then ⟨db, [], none⟩
  else
    match get_wix_product_id env db doc with
    | none => create_wix_product env db doc
    | some pid =>
      if pid = "" then create_wix_product env db doc
      else if env.mapRaises then ⟨db, [], some "exception in map_item_to_wix_product"⟩
      else
        let product_data := map_item_to_wix_product env.pyStr doc
        let _res := call_wix_update_product_api env pid product_data
        ⟨db, [Event.mapped, Event.updateCall pid], none⟩

/-- Entry point `update_wix_product`: body wrapped in
`try/except Exception`, handler logs and returns normally. -/
def update_wix_product (env : Env) (db : Db) (doc : Item) : SyncResult :=
  let r := update_wix_product_inner env db doc
  ⟨r.db, r.events, none⟩

/-- The `_v2` simulated API response dict
(`src/wix_integration/wix_integration/utils/wix_api.py`): the fields of
`{"success": ..., "product_id": ...}` the orchestrator reads. -/
structure WixApiResponse2 where
  success : Bool
  product_id : Option String
  deriving Repr, DecidableEq

/-- Embedding of `call_wix_create_product_api` of the `_v2` module: placeholder success
`{"success": True, "product_id": "wix_product_" + hash}`, or
`{"success": False, "error": ...}` when its internal `try` raises. -/
def call_wix_create_product_api_v2 (env : Env) (_pd : WixProductData2) : WixApiResponse2 :=
  if env.createApiRaises then ⟨false, none⟩
  else ⟨true, some ("wix_product_" ++ env.createHash)⟩

/-- Embedding of `call_wix_update_product_api` of the `_v2` module. -/
def call_wix_update_product_api_v2 (env : Env) (pid : String) (_pd : WixProductData2) :
    WixApiResponse2 :=
  if env.updateApiRaises then ⟨false, none⟩
  else ⟨true, some pid⟩

/-- Body of the `_v2` `create_wix_product` up to the outer handler: same
control flow as the primary module, except the success branch stores
`response.get("product_id")` without a truthiness guard (the simulated
API always supplies it on success, so the `getD` default is never hit). -/
def create_wix_product_v2_inner (env : Env) (db : Db) (doc : Item) : SyncResult :=
  if !should_sync_item doc then ⟨db, [], none⟩
  else if env.mapRaises then ⟨db, [], some "exception in map_item_to_wix_product"⟩
  else
    let product_data := map_item_to_wix_product_v2 env.pyStr env.globalCurrency doc
    let resp := call_wix_create_product_api_v2 env product_data
    if resp.success then
      let s := store_wix_product_id env db doc (resp.product_id.getD "")
      ⟨s.1, [Event.mapped, Event.createCall] ++ s.2, none⟩
    else ⟨db, [Event.mapped, Event.createCall], none⟩

/-- Entry point `create_wix_product` of the `_v2` module with its outer
`try/except Exception`. -/
def create_wix_product_v2 (env : Env) (db : Db) (doc : Item) : SyncResult :=
  let r := create_wix_product_v2_inner env db doc
  ⟨r.db, r.events, none⟩

/-- Body of the `_v2` `update_wix_product` up to the outer handler: same
fallback-to-create on a falsy stored id; on the update path neither
branch touches the id store. -/
def update_wix_product_v2_inner (env : Env) (db : Db) (doc : Item) : SyncResult :=
  if !should_sync_item doc then ⟨db, [], none⟩
  else
    match get_wix_product_id env db doc with
    | none => create_wix_product_v2 env db doc
    | some pid =>
      if pid = "" then create_wix_product_v2 env db doc
      else if env.mapRaises then ⟨db, [], some "exception in map_item_to_wix_product"⟩
      else
        let product_data := map_item_to_wix_product_v2 env.pyStr env.globalCurrency doc
        let _resp := call_wix_update_product_api_v2 env pid product_data
        ⟨db, [Event.mapped, Event.updateCall pid], none⟩

/-- Entry point `update_wix_product` of the `_v2` module with its outer
`try/except Exception`. -/
def update_wix_product_v2 (env : Env) (db : Db) (doc : Item) : SyncResult :=
  let r := update_wix_product_v2_inner env db doc
  ⟨r.db, r.events, none⟩

example : should_sync_item
    ⟨"SKU1", "SKU1", "Widget", none, false, true, some 5, none, none⟩ = true := by decide

example : should_sync_item
    ⟨"SKU3", "SKU3", "W", none, false, true, some 0, none, none⟩ = false := by decide

example : (map_item_to_wix_product (fun _ => "5")
    ⟨"SKU1", "SKU1", "Widget", none, false, true, some 5, none, none⟩).product.name
      = "Widget" := by decide

example : validate_wix_product_data (map_item_to_wix_product (fun _ => "5")
    ⟨"SKU1", "SKU1", "Widget", none, false, true, some 5, none, none⟩) = (true, []) := by decide

/-- A concrete stand-in for Python's `str` on the rate, used in examples
and witnesses. -/
def pyStrA : Option ℚ → String := fun _ => "5"

/-- Concrete eligible item for examples and witnesses. -/
def itemA : Item := ⟨"ITEM-001", "ITEM-001", "Widget", none, false, true, some 5, none, none⟩

/-- Concrete ineligible item (`is_sales_item = False`). -/
def itemB : Item := ⟨"ITEM-002", "SKU2", "Gadget", none, false, false, some 5, none, none⟩

/-- Environment in which every effectful step succeeds. -/
def envOK : Env := ⟨pyStrA, some "USD", false, false, false, false, false, "abc123"⟩

/-- Environment in which the create API call fails. -/
def envCreateFail : Env := ⟨pyStrA, some "USD", false, false, true, false, false, "abc123"⟩

example : create_wix_product envOK [] itemA =
    ⟨[("ITEM-001", "wix_abc123")],
     [Event.mapped, Event.createCall, Event.storeId "ITEM-001" "wix_abc123"], none⟩ := by decide

example : create_wix_product envCreateFail [] itemA =
    ⟨[], [Event.mapped, Event.createCall], none⟩ := by decide

example : update_wix_product envOK [] itemA = create_wix_product envOK [] itemA := by decide

example : update_wix_product envOK [("ITEM-001", "w1")] itemA =
    ⟨[("ITEM-001", "w1")], [Event.mapped, Event.updateCall "w1"], none⟩ := by decide

example : update_wix_product envOK [] itemB = ⟨[], [], none⟩ := by decide

example : create_wix_product_v2 envOK [] itemA =
    ⟨[("ITEM-001", "wix_product_abc123")],
     [Event.mapped, Event.createCall, Event.storeId "ITEM-001" "wix_product_abc123"], none⟩ := by
  decide

example : update_wix_product_v2 envOK [] itemA = create_wix_product_v2 envOK [] itemA := by decide

/-! ## Helper lemmas -/

/-- An invocation of `store_wix_product_id` always traces exactly one
`storeId` event, whether or not its internal write raised. -/
theorem store_wix_product_id_events (env : Env) (db : Db) (doc : Item) (pid : String) :
    (store_wix_product_id env db doc pid).2 = [Event.storeId doc.name pid] := by
  unfold store_wix_product_id
  split <;> rfl

/-- The `create_wix_product` entry point always reports no escaping
exception (its body is wrapped in `try/except Exception`). -/
theorem create_wix_product_exn (env : Env) (db : Db) (doc : Item) :
    (create_wix_product env db doc).exn = none := rfl

/-- The `update_wix_product` entry point always reports no escaping
exception. -/
theorem update_wix_product_exn (env : Env) (db : Db) (doc : Item) :
    (update_wix_product env db doc).exn = none := rfl

/-- The `_v2` `create_wix_product` entry point always reports no escaping
exception. -/
theorem create_wix_product_v2_exn (env : Env) (db : Db) (doc : Item) :
    (create_wix_product_v2 env db doc).exn = none := rfl

/-- The `_v2` `update_wix_product` entry point always reports no escaping
exception. -/
theorem update_wix_product_v2_exn (env : Env) (db : Db) (doc : Item) :
    (update_wix_product_v2 env db doc).exn = none := rfl

/-- The `create_wix_product` entry point never emits an update call. -/
theorem updateCall_not_mem_create (env : Env) (db : Db) (doc : Item) (pid : String) :
    Event.updateCall pid ∉ (create_wix_product env db doc).events := by
  show Event.updateCall pid ∉ (create_wix_product_inner env db doc).events
  unfold create_wix_product_inner call_wix_create_product_api store_wix_product_id
  cases h1 : should_sync_item doc <;> cases h2 : env.mapRaises <;>
    cases h3 : env.createApiRaises <;> cases h4 : env.storeRaises <;>
      by_cases h5 : ("wix_" ++ env.createHash) = "" <;>
        simp [h1, h2, h3, h4, h5]

/-- The `_v2` `create_wix_product` entry point never emits an update call. -/
theorem updateCall_not_mem_create_v2 (env : Env) (db : Db) (doc : Item) (pid : String) :
    Event.updateCall pid ∉ (create_wix_product_v2 env db doc).events := by
  show Event.updateCall pid ∉ (create_wix_product_v2_inner env db doc).events
  unfold create_wix_product_v2_inner call_wix_create_product_api_v2 store_wix_product_id
  cases h1 : should_sync_item doc <;> cases h2 : env.mapRaises <;>
    cases h3 : env.createApiRaises <;> cases h4 : env.storeRaises <;>
      simp [h1, h2, h3, h4]

/-- On an eligible item with no resolvable id, `update_wix_product` is the
`create_wix_product` entry point, verbatim. -/
theorem update_fallback_eq_create (env : Env) (db : Db) (doc : Item)
    (helig : should_sync_item doc = true)
    (hnone : get_wix_product_id env db doc = none) :
    update_wix_product env db doc = create_wix_product env db doc := by
  have h1 : update_wix_product_inner env db doc = create_wix_product env db doc := by
    unfold update_wix_product_inner
    simp [helig, hnone]
  show (⟨(update_wix_product_inner env db doc).db,
         (update_wix_product_inner env db doc).events, none⟩ : SyncResult)
       = create_wix_product env db doc
  rw [h1, ← create_wix_product_exn env db doc]

/-- The `_v2` counterpart of `update_fallback_eq_create`. -/
theorem update_fallback_eq_create_v2 (env : Env) (db : Db) (doc : Item)
    (helig : should_sync_item doc = true)
    (hnone : get_wix_product_id env db doc = none) :
    update_wix_product_v2 env db doc = create_wix_product_v2 env db doc := by
  have h1 : update_wix_product_v2_inner env db doc = create_wix_product_v2 env db doc := by
    unfold update_wix_product_v2_inner
    simp [helig, hnone]
  show (⟨(update_wix_product_v2_inner env db doc).db,
         (update_wix_product_v2_inner env db doc).events, none⟩ : SyncResult)
       = create_wix_product_v2 env db doc
  rw [h1, ← create_wix_product_v2_exn env db doc]

/-- When the create API call fails on an eligible item, the run is fully
determined: no state change, a `mapped` and a `createCall` event, no
exception. -/
theorem create_fail_result (env : Env) (db : Db) (doc : Item)
    (helig : should_sync_item doc = true)
    (hmap : env.mapRaises = false)
    (hfail : env.createApiRaises = true) :
    create_wix_product env db doc = ⟨db, [Event.mapped, Event.createCall], none⟩ := by
  show (⟨(create_wix_product_inner env db doc).db,
         (create_wix_product_inner env db doc).events, none⟩ : SyncResult) = _
  simp [create_wix_product_inner, call_wix_create_product_api, helig, hmap, hfail]

/-- The create path of an eligible item (no exception injected into the
mapping step) always issues the create API call, whatever the call's
outcome. -/
theorem createCall_mem_create (env : Env) (db : Db) (doc : Item)
    (helig : should_sync_item doc = true) (hmap : env.mapRaises = false) :
    Event.createCall ∈ (create_wix_product env db doc).events := by
  show Event.createCall ∈ (create_wix_product_inner env db doc).events
  unfold create_wix_product_inner call_wix_create_product_api store_wix_product_id
  cases h3 : env.createApiRaises <;>
    by_cases h5 : ("wix_" ++ env.createHash) = "" <;>
      cases h4 : env.storeRaises <;> simp [helig, hmap, h3, h4, h5]

/-! ## Claim theorems -/

/-- C1: when an update is dispatched for an item that passes the
eligibility check but `get_wix_product_id` resolves no stored id,
`update_wix_product` takes the create path: it returns exactly the result
of the `create_wix_product` entry point, performs no update call, and
reports no error. Shown for the primary module and for the duplicated
`_v2` module. -/
theorem update_without_id_takes_create_path (env : Env) (db : Db) (doc : Item)
    (helig : should_sync_item doc = true)
    (hnone : get_wix_product_id env db doc = none) :
    update_wix_product env db doc = create_wix_product env db doc ∧
    (∀ pid, Event.updateCall pid ∉ (update_wix_product env db doc).events) ∧
    (update_wix_product env db doc).exn = none ∧
    update_wix_product_v2 env db doc = create_wix_product_v2 env db doc ∧
    (∀ pid, Event.updateCall pid ∉ (update_wix_product_v2 env db doc).events) := by
  have h := update_fallback_eq_create env db doc helig hnone
  have h2 := update_fallback_eq_create_v2 env db doc helig hnone
  refine ⟨h, ?_, rfl, h2, ?_⟩
  · intro pid
    rw [h]
    exact updateCall_not_mem_create env db doc pid
  · intro pid
    rw [h2]
    exact updateCall_not_mem_create_v2 env db doc pid

/-- Witness for C1: a concrete eligible item, empty id store. -/
theorem update_without_id_takes_create_path_witness :
    should_sync_item itemA = true ∧ get_wix_product_id envOK [] itemA = none ∧
    update_wix_product envOK [] itemA = create_wix_product envOK [] itemA :=
  ⟨by decide, by decide,
   (update_without_id_takes_create_path envOK [] itemA (by decide) (by decide)).1⟩

/-- C2: for every environment — including every injected failure (an
exception inside the mapping step, a failing create or update API call, a
failing id write) — the entry points `create_wix_product` and
`update_wix_product` return normally: no exception escapes the
orchestrator boundary to the triggering host lifecycle event. -/
theorem sync_failures_are_contained (env : Env) (db : Db) (doc : Item) :
    (create_wix_product env db doc).exn = none ∧
    (update_wix_product env db doc).exn = none :=
  ⟨rfl, rfl⟩

/-- C3: `should_sync_item` (a total Boolean-valued function) returns
`true` exactly when the item is not disabled, is a sales item, and its
standard rate is present and strictly greater than zero. -/
theorem should_sync_item_iff (doc : Item) :
    should_sync_item doc = true ↔
      doc.disabled = false ∧ doc.is_sales_item = true ∧
        ∃ r : ℚ, doc.standard_rate = some r ∧ 0 < r := by
  unfold should_sync_item
  cases hd : doc.disabled <;> cases hs : doc.is_sales_item <;>
    cases hr : doc.standard_rate <;> simp [hd, hs, hr]
  rename_i r
  rcases le_or_lt r 0 with h | h
  · have hc : r = 0 ∨ r ≤ 0 := Or.inr h
    simp [hc, h.not_lt]
  · have hc : ¬(r = 0 ∨ r ≤ 0) := by
      rintro (rfl | hle)
      · exact lt_irrefl 0 h
      · exact absurd h (not_lt.mpr hle)
    simp [hc, h]
    exact ne_of_gt h

/-- C4: when the create API call fails on an eligible item,
`store_wix_product_id` is never invoked and the id store is unchanged; a
subsequent sync of the same item (whose id still resolves to nothing)
again takes the create path — it equals the create entry point, issues a
create call (when its own mapping step does not raise), and never issues
an update call. -/
theorem failed_create_stores_no_id (env : Env) (db : Db) (doc : Item)
    (helig : should_sync_item doc = true)
    (hmap : env.mapRaises = false)
    (hfail : env.createApiRaises = true) :
    (create_wix_product env db doc).db = db ∧
    (∀ n v, Event.storeId n v ∉ (create_wix_product env db doc).events) ∧
    (∀ env2 : Env, env2.dbGetRaises = false → dbGet db doc.name = none →
      update_wix_product env2 (create_wix_product env db doc).db doc =
        create_wix_product env2 db doc ∧
      (∀ pid, Event.updateCall pid ∉
        (update_wix_product env2 (create_wix_product env db doc).db doc).events) ∧
      (env2.mapRaises = false → Event.createCall ∈
        (update_wix_product env2 (create_wix_product env db doc).db doc).events)) := by
  have hres := create_fail_result env db doc helig hmap hfail
  have hdb : (create_wix_product env db doc).db = db := by rw [hres]
  refine ⟨hdb, ?_, ?_⟩
  · intro n v
    rw [hres]
    simp
  · intro env2 hg hd
    have hnone : get_wix_product_id env2 db doc = none := by
      simp [get_wix_product_id, hg, hd]
    rw [hdb]
    have hupd := update_fallback_eq_create env2 db doc helig hnone
    refine ⟨hupd, ?_, ?_⟩
    · intro pid
      rw [hupd]
      exact updateCall_not_mem_create env2 db doc pid
    · intro hmap2
      rw [hupd]
      exact createCall_mem_create env2 db doc helig hmap2

/-- Witness for C4: the failing-create environment on a concrete eligible
item leaves the empty id store empty. -/
theorem failed_create_stores_no_id_witness :
    should_sync_item itemA = true ∧ envCreateFail.mapRaises = false ∧
    envCreateFail.createApiRaises = true ∧
    (create_wix_product envCreateFail [] itemA).db = [] :=
  ⟨by decide, by decide, by decide,
   (failed_create_stores_no_id envCreateFail [] itemA
     (by decide) (by decide) (by decide)).1⟩

/-- C5: both mappers emit exactly one variant, and its `sku` is the
item's `item_code`, exact and unmodified, for every item and every
rendering of the rate. -/
theorem mapper_preserves_sku (pyStr : Option ℚ → String) (gc : Option String) (doc : Item) :
    ((map_item_to_wix_product pyStr doc).product.variantsInfo.variants.map WixVariant.sku)
        = [doc.item_code] ∧
    ((map_item_to_wix_product_v2 pyStr gc doc).product.variants.map WixVariant2.sku)
        = [doc.item_code] :=
  ⟨rfl, rfl⟩

/-- C6: on an item that fails the eligibility check, both entry points
return with an empty effect trace (no mapping, no create call, no update
call, no store invocation) and an unchanged id store. -/
theorem ineligible_item_skipped (env : Env) (db : Db) (doc : Item)
    (h : should_sync_item doc = false) :
    create_wix_product env db doc = ⟨db, [], none⟩ ∧
    update_wix_product env db doc = ⟨db, [], none⟩ := by
  constructor
  · show (⟨(create_wix_product_inner env db doc).db,
          (create_wix_product_inner env db doc).events, none⟩ : SyncResult) = _
    simp [create_wix_product_inner, h]
  · show (⟨(update_wix_product_inner env db doc).db,
          (update_wix_product_inner env db doc).events, none⟩ : SyncResult) = _
    simp [update_wix_product_inner, h]

/-- Witness for C6: a concrete non-sales item is skipped with no events. -/
theorem ineligible_item_skipped_witness :
    should_sync_item itemB = false ∧
    create_wix_product envOK [] itemB = ⟨[], [], none⟩ :=
  ⟨by decide, (ineligible_item_skipped envOK [] itemB (by decide)).1⟩

/-- C8: each mapper is a pure function of the item (and of the fixed rate
rendering and configured currency): calling it twice on the unchanged item
yields identical payloads — its translation contains no clock, random, or
other call-dependent input. -/
theorem mapper_deterministic (pyStr : Option ℚ → String) (gc : Option String) (doc : Item) :
    map_item_to_wix_product pyStr doc = map_item_to_wix_product pyStr doc ∧
    map_item_to_wix_product_v2 pyStr gc doc = map_item_to_wix_product_v2 pyStr gc doc :=
  ⟨rfl, rfl⟩

/-- C9: on the update path (eligible item whose stored id resolves to a
truthy value), both `update_wix_product` entry points leave the id store
untouched and never invoke `store_wix_product_id` — an assigned id is
never overwritten by an update, whatever the outcome of the API call or
the mapping step. -/
theorem update_path_preserves_stored_id (env : Env) (db : Db) (doc : Item) (pid : String)
    (helig : should_sync_item doc = true)
    (hid : get_wix_product_id env db doc = some pid)
    (hpid : pid ≠ "") :
    (update_wix_product env db doc).db = db ∧
    (∀ n v, Event.storeId n v ∉ (update_wix_product env db doc).events) ∧
    (update_wix_product_v2 env db doc).db = db ∧
    (∀ n v, Event.storeId n v ∉ (update_wix_product_v2 env db doc).events) := by
  cases hm : env.mapRaises <;>
    simp [update_wix_product, update_wix_product_inner, update_wix_product_v2,
      update_wix_product_v2_inner, helig, hid, hpid, hm]

/-- Witness for C9: a concrete item with a stored id keeps it across an
update sync. -/
theorem update_path_preserves_stored_id_witness :
    should_sync_item itemA = true ∧
    get_wix_product_id envOK [("ITEM-001", "w1")] itemA = some "w1" ∧
    ("w1" : String) ≠ "" ∧
    (update_wix_product envOK [("ITEM-001", "w1")] itemA).db = [("ITEM-001", "w1")] :=
  ⟨by decide, by decide, by decide,
   (update_path_preserves_stored_id envOK [("ITEM-001", "w1")] itemA "w1"
     (by decide) (by decide) (by decide)).1⟩

/-- C10: whenever the item's code is a non-empty string and Python's
rendering of the rate is non-empty (Python `str` never returns the empty
string), the primary mapper's payload passes `validate_wix_product_data`
with an empty error list. -/
theorem mapper_output_passes_validation (pyStr : Option ℚ → String) (doc : Item)
    (hcode : doc.item_code ≠ "") (hamt : pyStr doc.standard_rate ≠ "") :
    validate_wix_product_data (map_item_to_wix_product pyStr doc) = (true, []) := by
  unfold validate_wix_product_data map_item_to_wix_product
  by_cases hn : doc.item_name = "" <;>
    simp [hn, hcode, hamt, variant_price_errors]

/-- Witness for C10: the concrete payload of `itemA` validates cleanly. -/
theorem mapper_output_passes_validation_witness :
    itemA.item_code ≠ "" ∧ pyStrA itemA.standard_rate ≠ "" ∧
    validate_wix_product_data (map_item_to_wix_product pyStrA itemA) = (true, []) :=
  ⟨by decide, by decide,
   mapper_output_passes_validation pyStrA itemA (by decide) (by decide)⟩
